import Mathlib

/-!
Shallow embedding of the user-creation core of `crowdsource-rs`:
value objects (`src/lib/domain/crowdsrc/models/user.rs`), the domain
service (`src/lib/domain/crowdsrc/service.rs`), the storage adapter
(`src/lib/outbound/sqlx_user_repository.rs`) and the transport error
mapping (`src/lib/inbound/http/responses.rs`).

Rust `Result<T, E>` is embedded as `RResult T E`; strings as Lean
`String` (a list of unicode scalar values, matching Rust `char`
iteration); the users table as a `List Row`; `Uuid::new_v4()` and
`Utc::now()` as explicit parameters drawn by the environment at write
time; infrastructure failures (transaction begin/commit failure, insert
failures other than a constraint violation) as an explicit `Fault`
parameter chosen by the environment.
-/

/-- Rust `Result<T, E>`. -/
inductive RResult (T : Type) (E : Type) where
  | ok (val : T)
  | err (e : E)
deriving DecidableEq, Repr

def RResult.isOk {T E : Type} : RResult T E → Bool
  | .ok _ => true
  | .err _ => false

/-- Rust `char::is_whitespace`: the Unicode `White_Space` property
(UAX #44), which is exactly this finite set of scalar values. -/
def rustIsWhitespace (c : Char) : Bool :=
  let n := c.toNat
  n = 0x09 || n = 0x0A || n = 0x0B || n = 0x0C || n = 0x0D ||
  n = 0x20 || n = 0x85 || n = 0xA0 || n = 0x1680 ||
  (0x2000 ≤ n && n ≤ 0x200A) || n = 0x2028 || n = 0x2029 ||
  n = 0x202F || n = 0x205F || n = 0x3000

/-- Rust `str::trim`: drop leading and trailing `char::is_whitespace`
characters. -/
def rustTrim (s : String) : String :=
  ⟨((s.data.dropWhile rustIsWhitespace).reverse.dropWhile rustIsWhitespace).reverse⟩

/-- `UserName(String)` from `models/user.rs`: the wrapped, already
normalized string. -/
structure UserName where
  val : String
deriving DecidableEq, Repr

/-- `UserNameError` from `models/user.rs`. -/
inductive UserNameError where
  | Empty
  | WithWhitespace (invalid_username : String)
deriving DecidableEq, Repr

/-- `UserName::new` from `models/user.rs`: trim, reject an empty trimmed
value, reject a trimmed value still containing whitespace (reporting the
original raw input), otherwise wrap the trimmed value. -/
def UserName.new (raw : String) : RResult UserName UserNameError :=
  let trimmed := rustTrim raw
  if trimmed.isEmpty then .err .Empty
  else if trimmed.data.any rustIsWhitespace then
    .err (.WithWhitespace raw)
  else .ok ⟨trimmed⟩

/-- `EmailAddress` from `models/user.rs`: wraps the string form of a
validated `email_address::EmailAddress` (the external crate's grammar is
not needed by any claim; only the wrapped string is). -/
structure EmailAddress where
  val : String
deriving DecidableEq, Repr

/-- `EmailAddressError` from `models/user.rs`. -/
structure EmailAddressError where
  invalid_email : String
  message : String
deriving DecidableEq, Repr

example : UserName.new "  " = .err .Empty := by decide
example : UserName.new "a b" = .err (.WithWhitespace "a b") := by decide
example : UserName.new " ab " = .ok ⟨"ab"⟩ := by decide
example : UserName.new " a b " = .err (.WithWhitespace " a b ") := by decide

/-- `User` from `models/user.rs`: fields `id`, `username`, `email_addr` —
and no creation-timestamp field. `uuid::Uuid` is embedded as `Nat`. -/
structure User where
  id : Nat
  username : UserName
  email_addr : EmailAddress
deriving DecidableEq, Repr

/-- `User::new` from `models/user.rs`: three arguments, no timestamp. -/
def User.new (id : Nat) (username : UserName) (email_addr : EmailAddress) : User :=
  ⟨id, username, email_addr⟩

/-- `CreateUserRequest` from `models/user.rs`. -/
structure CreateUserRequest where
  name : UserName
  email : EmailAddress
deriving DecidableEq, Repr

/-- A `sqlx::Error` as the adapter inspects it: either
`sqlx::Error::Database` carrying a database error whose `code()` is an
`Option<String>`, or any other variant of the enum. -/
inductive SqlxError where
  | Database (code : Option String)
  | Other
deriving DecidableEq, Repr

/-- The `anyhow` context chains the adapter attaches before surfacing an
infrastructure failure as `CreateUserError::Unknown`: the operation being
attempted plus, for a failed save, the username and email involved and the
underlying `sqlx` error. -/
inductive ErrorCause where
  | beginTxFailed
  | saveUserFailed (username : String) (email : String) (underlying : SqlxError)
  | commitTxFailed
deriving DecidableEq, Repr

/-- `CreateUserError` from `models/user.rs`. -/
inductive CreateUserError where
  | DuplicateUserName (username : UserName)
  | DuplicateEmail (email : EmailAddress)
  | Unknown (cause : ErrorCause)
deriving DecidableEq, Repr

/-- One row of the `users` table:
`INSERT INTO users (id, email, username, created_at)`.
`DateTime<Utc>` is embedded as `Nat`. -/
structure Row where
  id : Nat
  email : String
  username : String
  created_at : Nat
deriving DecidableEq, Repr

/-- `UNIQUE_CONSTRAINT_VIOLATION_CODE` from `sqlx_user_repository.rs`. -/
def UNIQUE_CONSTRAINT_VIOLATION_CODE : String := "2067"

/-- `is_unique_constraint_violation` from `sqlx_user_repository.rs`: true
exactly for a database error whose code equals
`UNIQUE_CONSTRAINT_VIOLATION_CODE`. -/
def is_unique_constraint_violation : SqlxError → Bool
  | .Database (some code) => code == UNIQUE_CONSTRAINT_VIOLATION_CODE
  | .Database none => false
  | .Other => false

/-- Modelled from the spec: the `users` table schema (its migration SQL is
not under `src/`) is `users(id UNIQUE PRIMARY KEY, email UNIQUE, username
UNIQUE, created_at)`, and an INSERT that violates one of the uniqueness
constraints fails with a database error carrying the code the adapter
recognizes as a unique-constraint violation; a non-violating INSERT
appends the row. -/
def dbInsert (db : List Row) (r : Row) : RResult (List Row) SqlxError :=
  if db.any (fun x => x.id == r.id || x.email == r.email || x.username == r.username)
  then .err (.Database (some UNIQUE_CONSTRAINT_VIOLATION_CODE))
  else .ok (db ++ [r])

/-- Infrastructure failures the environment may inject into one
`create_user` call: failure to begin the transaction, an insert failure
other than the constraint outcome (carrying the `sqlx` error the driver
reported), or a failed commit. `none` is the healthy environment. -/
inductive Fault where
  | none
  | beginFail
  | insertFail (e : SqlxError)
  | commitFail
deriving DecidableEq, Repr

/-- `SqlxUserRepository::save_user`: generate `id` and `created_at` at
write time (here the freshly drawn `freshId`/`now` parameters), run the
INSERT inside the open transaction, and return `(id, created_at)` with the
transaction's pending state. An injected insert-level fault surfaces as
the driver's error instead. -/
def save_user (db : List Row) (username : UserName) (email : EmailAddress)
    (freshId : Nat) (now : Nat) (insertFault : Option SqlxError) :
    RResult ((Nat × Nat) × List Row) SqlxError :=
  match insertFault with
  | some e => .err e
  | none =>
    match dbInsert db ⟨freshId, email.val, username.val, now⟩ with
    | .err e => .err e
    | .ok db' => .ok ((freshId, now), db')

/-- The error mapping at `sqlx_user_repository.rs:61-75`: a
unique-constraint violation becomes `DuplicateEmail` carrying the
request's email; anything else is wrapped with the save-user context and
becomes `Unknown`. -/
def classify_save_error (req : CreateUserRequest) (e : SqlxError) : CreateUserError :=
  if is_unique_constraint_violation e then
    .DuplicateEmail req.email
  else
    .Unknown (.saveUserFailed req.name.val req.email.val e)

/-- `SqlxUserRepository::create_user`: begin a transaction, `save_user`,
map a save failure through `classify_save_error` (rolling back), commit,
and on success return `User::new` applied to the generated id and the
request's username and email. The source passes `created_at` as a fourth
argument to `User::new`, whose declared signature in `models/user.rs`
takes three and whose `User` type has no timestamp field; the embedding
follows the declared type. The second component is the committed table
state after the call. -/
def create_user (db : List Row) (req : CreateUserRequest)
    (freshId : Nat) (now : Nat) (fault : Fault) :
    RResult User CreateUserError × List Row :=
  match fault with
  | .beginFail => (.err (.Unknown .beginTxFailed), db)
  | f =>
    let insertFault : Option SqlxError :=
      match f with
      | .insertFail e => some e
      | _ => Option.none
    match save_user db req.name req.email freshId now insertFault with
    | .err e => (.err (classify_save_error req e), db)
    | .ok ((user_id, _created_at), db') =>
      if f = .commitFail then
        (.err (.Unknown .commitTxFailed), db)
      else
        (.ok (User.new user_id req.name req.email), db')

example :
    create_user [] ⟨⟨"alice"⟩, ⟨"a@x.com"⟩⟩ 1 0 .none =
      (.ok ⟨1, ⟨"alice"⟩, ⟨"a@x.com"⟩⟩, [⟨1, "a@x.com", "alice", 0⟩]) := by decide

example :
    create_user [⟨1, "a@x.com", "alice", 0⟩] ⟨⟨"alice"⟩, ⟨"b@y.com"⟩⟩ 2 5 .none =
      (.err (.DuplicateEmail ⟨"b@y.com"⟩), [⟨1, "a@x.com", "alice", 0⟩]) := by decide

/-- `Service::create_user` from `service.rs`: call the repository, and
when (and only when) the result is `Ok(user)` call
`user_notifier.user_created(user)`, then return the result unchanged. The
repository is a parameter (the `UserRepository` port); the second
component records the sequence of notifier invocations the call makes. -/
def Service.create_user (repo : CreateUserRequest → RResult User CreateUserError)
    (req : CreateUserRequest) : RResult User CreateUserError × List User :=
  let result := repo req
  match result with
  | .ok user => (result, [user])
  | .err _ => (result, [])

/-- `ApiError` from `responses.rs`. -/
inductive ApiError where
  | InternalServerError (msg : String)
  | UnprocessableEntity (msg : String)
deriving DecidableEq, Repr

/-- `impl From<CreateUserError> for ApiError` from `responses.rs`.
`UserName` and `EmailAddress` render through their `Display` impls, which
write the wrapped string. The `Unknown` cause is logged, and the carried
message is the fixed literal. -/
def ApiError.fromCreateUserError : CreateUserError → ApiError
  | .DuplicateUserName username =>
    .UnprocessableEntity ("user with username " ++ username.val ++ " already exists")
  | .DuplicateEmail email =>
    .UnprocessableEntity ("user with email \x27" ++ email.val ++ "\x27 already exists")
  | .Unknown _ => .InternalServerError "Internal server error"

/-- `ParseCreateUserHttpRequestError` from `handlers/create_user.rs`. -/
inductive ParseCreateUserHttpRequestError where
  | Name (e : UserNameError)
  | EmailAddress (e : EmailAddressError)
deriving DecidableEq, Repr

/-- `impl From<ParseCreateUserHttpRequestError> for ApiError` from
`responses.rs`. -/
def ApiError.fromParseError : ParseCreateUserHttpRequestError → ApiError
  | .Name .Empty => .UnprocessableEntity "username can\x27t be empty"
  | .Name (.WithWhitespace invalid_username) =>
    .UnprocessableEntity ("username \x27" ++ invalid_username ++ "\x27 is not valid")
  | .EmailAddress cause =>
    .UnprocessableEntity ("email address " ++ cause.invalid_email ++ " is invalid")

/-- `ApiErrorData` from `responses.rs`: the error response data field. -/
structure ApiErrorData where
  message : String
deriving DecidableEq, Repr

/-- `ApiResponseBody` from `responses.rs`, at the error data type. -/
structure ApiResponseBody where
  status_code : Nat
  data : ApiErrorData
deriving DecidableEq, Repr

/-- `impl IntoResponse for ApiError` from `responses.rs`: the HTTP status
and the JSON body. `InternalServerError`'s carried message is logged and
the body uses the fixed literal; `UnprocessableEntity`'s message is
echoed. `INTERNAL_SERVER_ERROR` is 500, `UNPROCESSABLE_ENTITY` is 422. -/
def ApiError.into_response : ApiError → Nat × ApiResponseBody
  | .InternalServerError _ => (500, ⟨500, ⟨"Internal server error"⟩⟩)
  | .UnprocessableEntity message => (422, ⟨422, ⟨message⟩⟩)

/-- C5: `UserName::new` trims surrounding whitespace; it fails with
`Empty` exactly when the trimmed result is empty; it fails with
`WithWhitespace` — whose `invalid_username` field equals the original
untrimmed raw input — exactly when the trimmed result is non-empty and
still contains a whitespace character; otherwise it succeeds with the
trimmed input as the wrapped value. -/
theorem userName_new_spec (raw : String) :
    (UserName.new raw = .err .Empty ↔ (rustTrim raw).isEmpty = true) ∧
    ((∃ s, UserName.new raw = .err (.WithWhitespace s)) ↔
      ((rustTrim raw).isEmpty = false ∧ (rustTrim raw).data.any rustIsWhitespace = true)) ∧
    (∀ s, UserName.new raw = .err (.WithWhitespace s) → s = raw) ∧
    ((rustTrim raw).isEmpty = false → (rustTrim raw).data.any rustIsWhitespace = false →
      UserName.new raw = .ok ⟨rustTrim raw⟩) := by
  unfold UserName.new
  simp only []
  split_ifs with h1 h2 <;> simp_all

/-- C4: the service returns exactly the repository's result; the notifier
is invoked exactly once, with the created user, when the repository
succeeds, and zero times when it fails. -/
theorem service_create_user_spec
    (repo : CreateUserRequest → RResult User CreateUserError)
    (req : CreateUserRequest) :
    (Service.create_user repo req).1 = repo req ∧
    (Service.create_user repo req).2 =
      (match repo req with
       | .ok user => [user]
       | .err _ => []) := by
  unfold Service.create_user
  cases h : repo req <;> simp [h]

/-- C6: every validation failure and every duplicate error maps to a
422 response whose message is the exact documented text (username
unquoted in the duplicate-username message, email single-quoted in the
duplicate-email message). -/
theorem transport_error_messages (raw invalid_email msg : String)
    (username : UserName) (email : EmailAddress) :
    ApiError.into_response (ApiError.fromParseError (.Name .Empty)) =
      (422, ⟨422, ⟨"username can\x27t be empty"⟩⟩) ∧
    ApiError.into_response (ApiError.fromParseError (.Name (.WithWhitespace raw))) =
      (422, ⟨422, ⟨"username \x27" ++ raw ++ "\x27 is not valid"⟩⟩) ∧
    ApiError.into_response (ApiError.fromParseError (.EmailAddress ⟨invalid_email, msg⟩)) =
      (422, ⟨422, ⟨"email address " ++ invalid_email ++ " is invalid"⟩⟩) ∧
    ApiError.into_response (ApiError.fromCreateUserError (.DuplicateUserName username)) =
      (422, ⟨422, ⟨"user with username " ++ username.val ++ " already exists"⟩⟩) ∧
    ApiError.into_response (ApiError.fromCreateUserError (.DuplicateEmail email)) =
      (422, ⟨422, ⟨"user with email \x27" ++ email.val ++ "\x27 already exists"⟩⟩) :=
  ⟨rfl, rfl, rfl, rfl, rfl⟩

/-- C7: `CreateUserError::Unknown` maps, for every underlying cause, to a
500 response whose body message is exactly "Internal server error"; the
response is identical for any two causes, so no diagnostic detail reaches
the client. -/
theorem unknown_error_redacted (c : ErrorCause) :
    ApiError.fromCreateUserError (.Unknown c) =
      .InternalServerError "Internal server error" ∧
    ApiError.into_response (ApiError.fromCreateUserError (.Unknown c)) =
      (500, ⟨500, ⟨"Internal server error"⟩⟩) ∧
    ∀ c₂ : ErrorCause,
      ApiError.into_response (ApiError.fromCreateUserError (.Unknown c)) =
        ApiError.into_response (ApiError.fromCreateUserError (.Unknown c₂)) :=
  ⟨rfl, rfl, fun _ => rfl⟩

/-- C8: the `User` type consists of exactly an id, a username and an
email address — it has no creation-timestamp field, so the value the
adapter returns on success cannot carry the write-time timestamp: on a
concrete successful call the row persists `created_at` but the returned
`User` is `User.new` of id, username and email alone. -/
theorem created_user_carries_no_timestamp :
    (∀ u : User, u = User.new u.id u.username u.email_addr) ∧
    create_user [] ⟨⟨"Kristoffer"⟩, ⟨"kristoffer@example.com"⟩⟩ 7 42 .none =
      (.ok (User.new 7 ⟨"Kristoffer"⟩ ⟨"kristoffer@example.com"⟩),
       [⟨7, "kristoffer@example.com", "Kristoffer", 42⟩]) := by
  refine ⟨fun u => ?_, by decide⟩
  cases u
  rfl

/-- C10: an insert error is classified as a uniqueness violation exactly
when it is a database error whose code string equals "2067"; every other
error is wrapped with the save-user context and surfaced as `Unknown`,
never as a duplicate error of either kind. -/
theorem unique_violation_classification (req : CreateUserRequest) (e : SqlxError) :
    (is_unique_constraint_violation e = true ↔ e = .Database (some "2067")) ∧
    (classify_save_error req e =
      if e = .Database (some "2067") then .DuplicateEmail req.email
      else .Unknown (.saveUserFailed req.name.val req.email.val e)) ∧
    (∀ un : UserName, classify_save_error req e ≠ .DuplicateUserName un) := by
  have h : is_unique_constraint_violation e = true ↔ e = .Database (some "2067") := by
    cases e with
    | Database code =>
      cases code with
      | none => simp [is_unique_constraint_violation]
      | some c =>
        simp [is_unique_constraint_violation, UNIQUE_CONSTRAINT_VIOLATION_CODE]
    | Other => simp [is_unique_constraint_violation]
  refine ⟨h, ?_, ?_⟩
  · unfold classify_save_error
    by_cases he : e = .Database (some "2067")
    · rw [if_pos (h.mpr he), if_pos he]
    · have hf : is_unique_constraint_violation e = false := by
        cases hiu : is_unique_constraint_violation e
        · rfl
        · exact absurd (h.mp hiu) he
      rw [hf, if_neg he]
      simp
  · intro un
    unfold classify_save_error
    split_ifs <;> simp

/-- C1 counterexample: with "alice" already persisted (under email
"alice\x40example.com"), a request for username "alice" with a fresh email
fails with `DuplicateEmail` carrying the request's email — not with
`DuplicateUserName "alice"` as the claim states. -/
theorem username_collision_counterexample :
    create_user [⟨1, "alice@example.com", "alice", 0⟩]
        ⟨⟨"alice"⟩, ⟨"bob@example.com"⟩⟩ 2 5 .none =
      (.err (.DuplicateEmail ⟨"bob@example.com"⟩),
       [⟨1, "alice@example.com", "alice", 0⟩]) ∧
    (create_user [⟨1, "alice@example.com", "alice", 0⟩]
        ⟨⟨"alice"⟩, ⟨"bob@example.com"⟩⟩ 2 5 .none).1 ≠
      .err (.DuplicateUserName ⟨"alice"⟩) := by
  decide

/-- C1 (amended): whenever a user with the requested username is already
persisted, `create_user` in a healthy environment fails with
`CreateUserError::DuplicateEmail` carrying the request's email — the
adapter maps every uniqueness violation to the email variant, so the
username cause is not reported distinguishably — and no second row is
inserted. -/
theorem duplicate_username_reported_as_duplicate_email
    (db : List Row) (req : CreateUserRequest) (freshId now : Nat)
    (h : ∃ r ∈ db, r.username = req.name.val) :
    create_user db req freshId now .none = (.err (.DuplicateEmail req.email), db) := by
  obtain ⟨r, hr, hu⟩ := h
  have hany : (db.any fun x =>
      x.id == freshId || x.email == req.email.val || x.username == req.name.val) = true :=
    List.any_eq_true.mpr ⟨r, hr, by simp [hu]⟩
  simp only [create_user, save_user, dbInsert]
  simp [hany, classify_save_error, is_unique_constraint_violation]

theorem duplicate_username_reported_as_duplicate_email_witness :
    create_user [⟨1, "alice@example.com", "alice", 0⟩]
        ⟨⟨"alice"⟩, ⟨"carol@example.com"⟩⟩ 3 9 .none =
      (.err (.DuplicateEmail ⟨"carol@example.com"⟩),
       [⟨1, "alice@example.com", "alice", 0⟩]) :=
  duplicate_username_reported_as_duplicate_email _ _ _ _
    ⟨⟨1, "alice@example.com", "alice", 0⟩, by decide, by decide⟩

/-- C2: whenever a user with the requested email is already persisted,
`create_user` in a healthy environment fails with
`CreateUserError::DuplicateEmail` carrying the conflicting email value
(the request's email, which equals the persisted one), and no second row
is inserted. -/
theorem duplicate_email_rejected
    (db : List Row) (req : CreateUserRequest) (freshId now : Nat)
    (h : ∃ r ∈ db, r.email = req.email.val) :
    create_user db req freshId now .none = (.err (.DuplicateEmail req.email), db) := by
  obtain ⟨r, hr, he⟩ := h
  have hany : (db.any fun x =>
      x.id == freshId || x.email == req.email.val || x.username == req.name.val) = true :=
    List.any_eq_true.mpr ⟨r, hr, by simp [he]⟩
  simp only [create_user, save_user, dbInsert]
  simp [hany, classify_save_error, is_unique_constraint_violation]

theorem duplicate_email_rejected_witness :
    create_user [⟨1, "kristoffer@example.com", "Kristoffer", 0⟩]
        ⟨⟨"Kris"⟩, ⟨"kristoffer@example.com"⟩⟩ 4 11 .none =
      (.err (.DuplicateEmail ⟨"kristoffer@example.com"⟩),
       [⟨1, "kristoffer@example.com", "Kristoffer", 0⟩]) :=
  duplicate_email_rejected _ _ _ _
    ⟨⟨1, "kristoffer@example.com", "Kristoffer", 0⟩, by decide, by decide⟩

/-- C9: every failing execution of `create_user` — a uniqueness
violation, a failed transaction begin, any other insert failure, or a
failed commit — leaves the persisted users table exactly as it was. -/
theorem failed_create_user_leaves_table_unchanged
    (db : List Row) (req : CreateUserRequest) (freshId now : Nat) (fault : Fault)
    (h : (create_user db req freshId now fault).1.isOk = false) :
    (create_user db req freshId now fault).2 = db := by
  unfold create_user at h ⊢
  cases fault with
  | beginFail => rfl
  | insertFail e => rfl
  | none =>
    simp only [save_user] at h ⊢
    cases hins : dbInsert db ⟨freshId, req.email.val, req.name.val, now⟩ with
    | err e => simp [hins]
    | ok db' => simp [hins, RResult.isOk] at h
  | commitFail =>
    simp only [save_user]
    cases hins : dbInsert db ⟨freshId, req.email.val, req.name.val, now⟩ with
    | err e => simp [hins]
    | ok db' => simp [hins]

theorem failed_create_user_leaves_table_unchanged_witness :
    (create_user [] ⟨⟨"alice"⟩, ⟨"alice@example.com"⟩⟩ 1 0 .commitFail).2 = [] :=
  failed_create_user_leaves_table_unchanged _ _ _ _ _ (by decide)

/-- No two rows of the table share a username. -/
def usernamesDistinct (db : List Row) : Prop :=
  db.Pairwise (fun a b => a.username ≠ b.username)

/-- No two rows of the table share an email. -/
def emailsDistinct (db : List Row) : Prop :=
  db.Pairwise (fun a b => a.email ≠ b.email)

/-- One `create_user` call as a step on the committed table state: the
environment chooses the request, the fresh id, the write-time clock and
the injected fault of each call. -/
def createStep (db : List Row) (c : CreateUserRequest × Nat × Nat × Fault) : List Row :=
  (create_user db c.1 c.2.1 c.2.2.1 c.2.2.2).2

/-- The committed table after a sequence of `create_user` calls starting
from the empty store. -/
def runCreates (calls : List (CreateUserRequest × Nat × Nat × Fault)) : List Row :=
  calls.foldl createStep []

lemma create_user_db_cases (db : List Row) (req : CreateUserRequest)
    (freshId now : Nat) (fault : Fault) :
    (create_user db req freshId now fault).2 = db ∨
    ((create_user db req freshId now fault).2 =
        db ++ [⟨freshId, req.email.val, req.name.val, now⟩] ∧
      (db.any fun x =>
        x.id == freshId || x.email == req.email.val || x.username == req.name.val) = false) := by
  unfold create_user
  cases fault with
  | beginFail => exact Or.inl rfl
  | insertFail e => exact Or.inl rfl
  | none =>
    simp only [save_user, dbInsert]
    by_cases hg : (db.any fun x =>
        x.id == freshId || x.email == req.email.val || x.username == req.name.val) = true
    · simp [hg]
    · simp only [Bool.not_eq_true] at hg
      simp [hg]
  | commitFail =>
    simp only [save_user, dbInsert]
    by_cases hg : (db.any fun x =>
        x.id == freshId || x.email == req.email.val || x.username == req.name.val) = true
    · simp [hg]
    · simp only [Bool.not_eq_true] at hg
      simp [hg]

lemma createStep_preserves_distinct (db : List Row)
    (c : CreateUserRequest × Nat × Nat × Fault)
    (hu : usernamesDistinct db) (he : emailsDistinct db) :
    usernamesDistinct (createStep db c) ∧ emailsDistinct (createStep db c) := by
  unfold createStep
  rcases create_user_db_cases db c.1 c.2.1 c.2.2.1 c.2.2.2 with hdb | ⟨hdb, hg⟩
  · rw [hdb]; exact ⟨hu, he⟩
  · rw [hdb]
    have hall : ∀ x ∈ db,
        (x.id == c.2.1 || x.email == c.1.email.val || x.username == c.1.name.val) = false := by
      intro x hx
      by_contra hc
      simp only [Bool.not_eq_false] at hc
      have hgt : (db.any fun x =>
          x.id == c.2.1 || x.email == c.1.email.val || x.username == c.1.name.val) = true :=
        List.any_eq_true.mpr ⟨x, hx, hc⟩
      rw [hg] at hgt
      exact Bool.false_ne_true hgt
    constructor
    · rw [usernamesDistinct, List.pairwise_append]
      refine ⟨hu, List.pairwise_singleton _ _, ?_⟩
      intro a ha b hb
      rw [List.mem_singleton] at hb
      subst hb
      have := hall a ha
      simp only [Bool.or_eq_false_iff, beq_eq_false_iff_ne, ne_eq] at this
      exact this.2
    · rw [emailsDistinct, List.pairwise_append]
      refine ⟨he, List.pairwise_singleton _ _, ?_⟩
      intro a ha b hb
      rw [List.mem_singleton] at hb
      subst hb
      have := hall a ha
      simp only [Bool.or_eq_false_iff, beq_eq_false_iff_ne, ne_eq] at this
      exact this.1.2

lemma foldl_createStep_distinct (calls : List (CreateUserRequest × Nat × Nat × Fault)) :
    ∀ db, usernamesDistinct db → emailsDistinct db →
      usernamesDistinct (calls.foldl createStep db) ∧
        emailsDistinct (calls.foldl createStep db) := by
  induction calls with
  | nil => exact fun db hu he => ⟨hu, he⟩
  | cons c cs ih =>
    intro db hu he
    rw [List.foldl_cons]
    have h := createStep_preserves_distinct db c hu he
    exact ih _ h.1 h.2

lemma create_user_success_shape (db : List Row) (req : CreateUserRequest)
    (freshId now : Nat) (fault : Fault) (u : User) (db' : List Row)
    (h : create_user db req freshId now fault = (.ok u, db')) :
    db' = db ++ [⟨freshId, req.email.val, req.name.val, now⟩] := by
  unfold create_user at h
  cases fault with
  | beginFail => exact absurd h (by simp)
  | insertFail e => exact absurd h (by simp [save_user, classify_save_error])
  | none =>
    simp only [save_user, dbInsert] at h
    by_cases hg : (db.any fun x =>
        x.id == freshId || x.email == req.email.val || x.username == req.name.val) = true
    · rw [if_pos hg] at h
      exact absurd h (by simp)
    · rw [if_neg hg] at h
      simp only [Prod.mk.injEq, RResult.ok.injEq] at h
      rw [if_neg (show ¬(Fault.none = Fault.commitFail) from by decide)] at h
      injection h with h1 h2
      exact h2.symm
  | commitFail =>
    simp only [save_user, dbInsert] at h
    by_cases hg : (db.any fun x =>
        x.id == freshId || x.email == req.email.val || x.username == req.name.val) = true
    · rw [if_pos hg] at h
      exact absurd h (by simp)
    · rw [if_neg hg] at h
      simp at h

lemma create_user_collision_fails (db : List Row) (req : CreateUserRequest)
    (freshId now : Nat) (fault : Fault) (r : Row) (hr : r ∈ db)
    (hcol : r.username = req.name.val ∨ r.email = req.email.val) :
    (create_user db req freshId now fault).1.isOk = false := by
  have hany : (db.any fun x =>
      x.id == freshId || x.email == req.email.val || x.username == req.name.val) = true := by
    refine List.any_eq_true.mpr ⟨r, hr, ?_⟩
    rcases hcol with h | h <;> simp [h]
  unfold create_user
  cases fault with
  | beginFail => rfl
  | insertFail e => rfl
  | none => simp [save_user, dbInsert, hany, RResult.isOk]
  | commitFail => simp [save_user, dbInsert, hany, RResult.isOk]

/-- C3: starting from the empty store, after every sequence of
`create_user` calls no two persisted rows share a username and no two
share an email; and once a call has succeeded, any later call requesting
the same username or the same email fails, so two such calls never both
succeed. -/
theorem create_user_uniqueness_invariant :
    (∀ calls, usernamesDistinct (runCreates calls) ∧ emailsDistinct (runCreates calls)) ∧
    (∀ (db : List Row) (req₁ req₂ : CreateUserRequest)
        (freshId₁ now₁ freshId₂ now₂ : Nat) (fault₁ fault₂ : Fault)
        (u : User) (db' : List Row),
      create_user db req₁ freshId₁ now₁ fault₁ = (.ok u, db') →
      (req₂.name.val = req₁.name.val ∨ req₂.email.val = req₁.email.val) →
      (create_user db' req₂ freshId₂ now₂ fault₂).1.isOk = false) := by
  constructor
  · intro calls
    exact foldl_createStep_distinct calls [] List.Pairwise.nil List.Pairwise.nil
  · intro db req₁ req₂ freshId₁ now₁ freshId₂ now₂ fault₁ fault₂ u db' h1 h2
    have hdb' := create_user_success_shape db req₁ freshId₁ now₁ fault₁ u db' h1
    subst hdb'
    refine create_user_collision_fails _ req₂ freshId₂ now₂ fault₂
      ⟨freshId₁, req₁.email.val, req₁.name.val, now₁⟩ (by simp) ?_
    rcases h2 with h | h
    · exact Or.inl h.symm
    · exact Or.inr h.symm
